import Mathlib

/-!
Verification of the getty connection layer (`conn.go`): a shallow embedding
of the shared connection state (`gettyConn`), the stream adapter
(`gettyTCPConn`) and the message adapter (`gettyWSConn`), with theorems
settling the specified properties. Go `uint32` arithmetic is modelled as
`Nat` modulo `2^32`; `time.Duration` (an `int64` of nanoseconds) as `Int`;
Go panics as an `Option` result (`none` = panic); the underlying transports
as explicit inputs/outputs threaded through each operation.
-/

namespace Getty

/-- The modulus of Go `uint32` arithmetic, `2^32`. -/
def u32 : Nat := 4294967296

/-- Source `atomic.AddUint32(&x, delta)`: unsigned 32-bit addition, wrapping modulo `2^32`. -/
def addUint32 (x delta : Nat) : Nat := (x + delta) % u32

/-- Go `time.Duration`: a signed 64-bit count of nanoseconds (overflow is
irrelevant to the properties here, so plain `Int`). -/
abbrev Duration := Int

/-- The shared instrumentation record `gettyConn` (conn.go lines 57-69).
`uint32` counters are `Nat` kept below `2^32` by the increment operations;
`active` is the `int64` elapsed-since-launch store. -/
structure GettyConn where
  ID : Nat
  readCount : Nat
  writeCount : Nat
  readPkgCount : Nat
  writePkgCount : Nat
  active : Int
  rDeadline : Duration
  wDeadline : Duration
  localAddr : String
  peer : String
deriving Repr, DecidableEq

/-- The zeroed `gettyConn` before construction fills any field. -/
def gettyConn0 : GettyConn :=
  { ID := 0, readCount := 0, writeCount := 0, readPkgCount := 0,
    writePkgCount := 0, active := 0, rDeadline := 0, wDeadline := 0,
    localAddr := "", peer := "" }

/-- Source `incReadPkgCount` (conn.go line 71): atomic uint32 increment of `readPkgCount`. -/
def incReadPkgCount (this : GettyConn) : GettyConn :=
  { this with readPkgCount := addUint32 this.readPkgCount 1 }

/-- Source `incWritePkgCount` (conn.go line 75): atomic uint32 increment of `writePkgCount`. -/
def incWritePkgCount (this : GettyConn) : GettyConn :=
  { this with writePkgCount := addUint32 this.writePkgCount 1 }

/-- Source `updateActive` (conn.go line 79): stores `int64(time.Since(launchTime))`;
the clock reading `sinceLaunch` is an explicit input. -/
def updateActive (this : GettyConn) (sinceLaunch : Int) : GettyConn :=
  { this with active := sinceLaunch }

/-- Source `getActive` (conn.go line 83): `launchTime.Add(active)`, i.e. the absolute
time `epoch + active` with `epoch` the launch instant. -/
def getActive (epoch : Int) (this : GettyConn) : Int :=
  epoch + this.active

/-- Source `setReadDeadline` (conn.go lines 97-106): panics (`none`) when the
duration is below 1; otherwise stores it and back-fills `wDeadline` when
`wDeadline` is still zero. -/
def setReadDeadline (this : GettyConn) (rDeadline : Duration) : Option GettyConn :=
  if rDeadline < 1 then none
  else
    let this := { this with rDeadline := rDeadline }
    if this.wDeadline = 0 then some { this with wDeadline := rDeadline }
    else some this

/-- Source `setWriteDeadline` (conn.go lines 112-118): panics (`none`) when the
duration is below 1; otherwise stores it, never touching `rDeadline`. -/
def setWriteDeadline (this : GettyConn) (wDeadline : Duration) : Option GettyConn :=
  if wDeadline < 1 then none
  else some { this with wDeadline := wDeadline }

/-- The identity generator: `atomic.AddUint32(&connID, 1)` (conn.go lines
53-55, 146, 216) returns the incremented value, so the counter value after a
call is also the identity returned by that call. -/
def nextConnID (connID : Nat) : Nat := addUint32 connID 1

/-- The process-wide `connID` counter after `k` adapter constructions,
starting from its zero value. -/
def connIDAfter : Nat → Nat
  | 0 => 0
  | k + 1 => nextConnID (connIDAfter k)

/-- The identity returned by the `k`-th construction (0-based). -/
def idOfCall (k : Nat) : Nat := connIDAfter (k + 1)

theorem connIDAfter_eq (k : Nat) : connIDAfter k = k % u32 := by
  induction k with
  | zero => rfl
  | succ n ih =>
      simp only [connIDAfter, nextConnID, addUint32, ih, Nat.mod_add_mod]

theorem idOfCall_eq (k : Nat) : idOfCall k = (k + 1) % u32 := by
  simp [idOfCall, connIDAfter_eq]

/-- The dynamic type of a `net.Conn` handle: either a `*net.TCPConn` or some
other implementation of the interface. -/
inductive ConnKind where
  | tcp
  | nonTCP
deriving Repr, DecidableEq

/-- Observable side of the underlying socket that outlives the adapter's
handle: the linger option last set on it and how many times it was closed. -/
structure Transport where
  linger : Option Int
  closeCount : Nat
deriving Repr, DecidableEq

/-- A fresh, open underlying socket. -/
def transport0 : Transport := { linger := none, closeCount := 0 }

/-- The stream adapter `gettyTCPConn` (conn.go lines 124-127): the embedded
`gettyConn`, the stored `net.Conn` handle (`none` once cleared by `close`,
carrying its dynamic type), and the observable underlying socket. -/
structure GettyTCPConn where
  gettyConn : GettyConn
  conn : Option ConnKind
  transport : Transport
deriving Repr, DecidableEq

/-- Source `newGettyTCPConn` (conn.go lines 130-151): panics (`none`) on a nil
handle; otherwise assigns `atomic.AddUint32(&connID, 1)` as the identity and
snapshots the addresses (empty when the transport reports none). Returns the
new global counter value alongside the adapter. -/
def newGettyTCPConn (connID : Nat) (conn : Option ConnKind)
    (localA peerA : Option String) : Option (Nat × GettyTCPConn) :=
  match conn with
  | none => none
  | some k =>
      let id := nextConnID connID
      let gc := { gettyConn0 with ID := id, localAddr := localA.getD "", peer := peerA.getD "" }
      some (id, { gettyConn := gc, conn := some k, transport := transport0 })

/-- Source `gettyTCPConn.read` (conn.go lines 154-163): forwards to the transport
(whose result `(l, e)` is an input here), adds `uint32(l)` to `readCount`,
and returns `(l, e)` unchanged. -/
def tcpRead (this : GettyTCPConn) (l : Nat) (e : Option Nat) :
    GettyTCPConn × Nat × Option Nat :=
  ({ this with gettyConn :=
      { this.gettyConn with readCount := addUint32 this.gettyConn.readCount l } },
   l, e)

/-- Source `gettyTCPConn.write` (conn.go lines 166-175): adds `uint32(len(p))` to
`writeCount` before the transport write (whose error `e` is an input), and
returns that error unmodified. -/
def tcpWrite (this : GettyTCPConn) (p : List Nat) (e : Option Nat) :
    GettyTCPConn × Option Nat :=
  ({ this with gettyConn :=
      { this.gettyConn with writeCount := addUint32 this.gettyConn.writeCount p.length } },
   e)

/-- Source `gettyTCPConn.close` (conn.go lines 178-188): a no-op when the handle is
already cleared; otherwise type-asserts the handle to `*net.TCPConn`
(panicking, `none`, when it is not one), sets linger to `waitSec`, closes the
socket, and clears the handle. -/
def tcpClose (this : GettyTCPConn) (waitSec : Int) : Option GettyTCPConn :=
  match this.conn with
  | none => some this
  | some k =>
      if k = ConnKind.tcp then
        some { this with
          conn := none,
          transport := { linger := some waitSec,
                         closeCount := this.transport.closeCount + 1 } }
      else none

/-- Gorilla websocket message type codes (RFC 6455 opcodes). -/
def binaryMessage : Nat := 2

def closeMessage : Nat := 8

def pingMessage : Nat := 9

def pongMessage : Nat := 10

/-- Errors a gorilla `WriteMessage` can surface, as the ping handler
classifies them: the sentinel `websocket.ErrCloseSent`, a `net.Error` whose
`Temporary()` is true or false, or any other error. -/
inductive WriteErr where
  | errCloseSent
  | netTemporary
  | netNotTemporary
  | otherErr
deriving Repr, DecidableEq

/-- Source `err.(net.Error)` succeeds exactly on the two `net.Error` shapes. -/
def isNetError : WriteErr → Bool
  | WriteErr.netTemporary => true
  | WriteErr.netNotTemporary => true
  | _ => false

/-- Source `e.Temporary()` for the modelled `net.Error` values. -/
def isTemporary : WriteErr → Bool
  | WriteErr.netTemporary => true
  | _ => false

/-- The message adapter `gettyWSConn` (conn.go lines 194-197): the embedded
`gettyConn`, the sequence of frames written so far (type code and payload),
the dynamic type of `conn.UnderlyingConn()`, and the underlying socket. -/
structure GettyWSConn where
  gettyConn : GettyConn
  frames : List (Nat × String)
  underlying : ConnKind
  transport : Transport
deriving Repr, DecidableEq

/-- Source `gettyWSConn.handlePing` (conn.go lines 227-239): writes a pong frame
carrying the ping's payload; the transport's error for that write is the
input `writeErr`. `ErrCloseSent` and temporary `net.Error`s are rewritten to
nil; on a nil (possibly rewritten) error `updateActive` runs with the clock
reading `now`. Returns the final error. -/
def handlePing (this : GettyWSConn) (message : String) (now : Int)
    (writeErr : Option WriteErr) : GettyWSConn × Option WriteErr :=
  let this := { this with frames := this.frames ++ [(pongMessage, message)] }
  let err := writeErr
  let err :=
    if err = some WriteErr.errCloseSent then none
    else if (match err with
             | some e => isNetError e && isTemporary e
             | none => false) then none
    else err
  if err = none then
    ({ this with gettyConn := updateActive this.gettyConn now }, none)
  else (this, err)

/-- Source `gettyWSConn.handlePong` (conn.go lines 241-244): unconditionally
`updateActive`, never an error. -/
def handlePong (this : GettyWSConn) (now : Int) : GettyWSConn × Option WriteErr :=
  ({ this with gettyConn := updateActive this.gettyConn now }, none)

/-- Errors a gorilla `ReadMessage` can surface, as `read` classifies them: a
`*websocket.CloseError` with its status code, or any other error. -/
inductive ReadErr where
  | closeErr (code : Nat)
  | otherErr
deriving Repr, DecidableEq

/-- The `websocket.CloseGoingAway` status code. -/
def closeGoingAway : Nat := 1001

/-- Source `websocket.IsUnexpectedCloseError(e, expected)`: true exactly when `e`
is a close error whose code differs from the expected one. -/
def isUnexpectedCloseError (e : ReadErr) (expected : Nat) : Bool :=
  match e with
  | ReadErr.closeErr code => code ≠ expected
  | ReadErr.otherErr => false

/-- Source `gettyWSConn.read` (conn.go lines 247-260): the transport's
`ReadMessage` result `(b, e)` is an input. On success `readPkgCount` is
incremented; on failure nothing is counted and a warning is logged exactly
when the error is an unexpected close. Returns `(b, e)` unchanged plus
whether the warning was logged. -/
def wsRead (this : GettyWSConn) (b : String) (e : Option ReadErr) :
    GettyWSConn × String × Option ReadErr × Bool :=
  match e with
  | none =>
      ({ this with gettyConn := incReadPkgCount this.gettyConn }, b, none, false)
  | some err =>
      (this, b, some err, isUnexpectedCloseError err closeGoingAway)

/-- Source `gettyWSConn.write` (conn.go lines 263-268): adds `uint32(len(p))` to
`writeCount`, then writes `p` as one binary frame; the transport's error `e`
is returned unmodified. -/
def wsWrite (this : GettyWSConn) (p : String) (e : Option WriteErr) :
    GettyWSConn × Option WriteErr :=
  ({ this with
      gettyConn := { this.gettyConn with
        writeCount := addUint32 this.gettyConn.writeCount p.length },
      frames := this.frames ++ [(binaryMessage, p)] },
   e)

/-- Source `gettyWSConn.writePing` (conn.go lines 270-272): one empty-payload ping
frame; the transport's error is returned unmodified. -/
def writePing (this : GettyWSConn) (e : Option WriteErr) :
    GettyWSConn × Option WriteErr :=
  ({ this with frames := this.frames ++ [(pingMessage, "")] }, e)

/-- Source `gettyWSConn.close` (conn.go lines 275-279): writes a close frame with
payload `"bye-bye!!!"` ignoring the write's error `writeErr`, type-asserts
the underlying conn to `*net.TCPConn` (panic, `none`, otherwise), sets
linger to `waitSec`, and closes the websocket ignoring its error
`closeErr`. No error is returned. -/
def wsClose (this : GettyWSConn) (waitSec : Int)
    (writeErr closeErr : Option WriteErr) : Option GettyWSConn :=
  let this := { this with frames := this.frames ++ [(closeMessage, "bye-bye!!!")] }
  if this.underlying = ConnKind.tcp then
    some { this with transport := { linger := some waitSec,
                                    closeCount := this.transport.closeCount + 1 } }
  else none

/-- The linger value whose meaning, per the linger-control operation's
semantics, is "abort the connection immediately on close, discarding unsent
data" (abandoning any graceful flush). -/
def abandonLinger : Int := 0

/-- A freshly constructed stream adapter over a genuine TCP handle. -/
def tcpConn0 : GettyTCPConn :=
  { gettyConn := gettyConn0, conn := some ConnKind.tcp, transport := transport0 }

/-- A stream adapter constructed over a `net.Conn` that is not a `*net.TCPConn`. -/
def tcpConnU : GettyTCPConn :=
  { gettyConn := gettyConn0, conn := some ConnKind.nonTCP, transport := transport0 }

/-- A freshly constructed message adapter whose underlying conn is TCP. -/
def wsConn0 : GettyWSConn :=
  { gettyConn := gettyConn0, frames := [], underlying := ConnKind.tcp,
    transport := transport0 }

/-- A message adapter whose underlying conn is not a `*net.TCPConn`. -/
def wsConnU : GettyWSConn :=
  { gettyConn := gettyConn0, frames := [], underlying := ConnKind.nonTCP,
    transport := transport0 }

/-- The sequence of `updateActive` states: `activeAfter st t k` is the shared
record after `k` calls whose clock readings were `t 0, ..., t (k-1)`. -/
def activeAfter (st : GettyConn) (t : Nat → Int) : Nat → GettyConn
  | 0 => st
  | k + 1 => updateActive (activeAfter st t k) (t k)

/-- C1 counterexample: the identity counter is a wrapping `uint32`, so the
returned identities are not strictly increasing and not pairwise distinct
over an indefinitely running process: call number 4294967295 (0-based)
returns 0, a decrease after call 4294967294 returned 4294967295, and call
4294967296 repeats call 0's identity 1. -/
theorem connID_wraparound_cex :
    (4294967294 : Nat) < 4294967295 ∧
    idOfCall 4294967295 < idOfCall 4294967294 ∧
    idOfCall 4294967296 = idOfCall 0 ∧ (4294967296 : Nat) ≠ 0 := by
  refine ⟨by decide, ?_, ?_, by decide⟩
  · rw [idOfCall_eq, idOfCall_eq]; decide
  · rw [idOfCall_eq, idOfCall_eq]; decide

/-- C1 (amended): before the 32-bit counter wraps — for the first
`2^32 - 1` construction calls — the `k`-th call returns exactly `k + 1`, so
the identities start at 1, are strictly increasing, pairwise distinct, and
as a set form the contiguous range `1..n`. -/
theorem connID_contiguous_before_wrap (n : Nat) (hn : n ≤ u32 - 1) :
    idOfCall 0 = 1 ∧
    (∀ k, k < n → idOfCall k = k + 1) ∧
    (∀ i j, i < j → j < n → idOfCall i < idOfCall j) := by
  have hu : u32 = 4294967296 := rfl
  have key : ∀ k, k < n → idOfCall k = k + 1 := by
    intro k hk
    rw [idOfCall_eq]
    exact Nat.mod_eq_of_lt (by omega)
  refine ⟨by decide, key, ?_⟩
  intro i j hij hj
  rw [key i (lt_trans hij hj), key j hj]
  omega

theorem connID_contiguous_before_wrap_witness :
    (3 : Nat) ≤ u32 - 1 ∧
    (idOfCall 0 = 1 ∧
     (∀ k, k < 3 → idOfCall k = k + 1) ∧
     (∀ i j, i < j → j < 3 → idOfCall i < idOfCall j)) :=
  ⟨by decide, connID_contiguous_before_wrap 3 (by decide)⟩

/-- C2: the ping handler sends a pong frame carrying the identical payload;
when the transport write succeeds, or fails with `ErrCloseSent`, or fails
with a temporary `net.Error`, the handler returns nil and `updateActive`
runs; for the two hard outcomes (a non-temporary `net.Error` or any other
error) the error is returned unmodified and the shared record is untouched. -/
theorem handlePing_spec (this : GettyWSConn) (message : String) (now : Int)
    (writeErr : Option WriteErr) :
    (handlePing this message now writeErr).1.frames =
      this.frames ++ [(pongMessage, message)] ∧
    ((writeErr = none ∨ writeErr = some WriteErr.errCloseSent ∨
      writeErr = some WriteErr.netTemporary) →
      (handlePing this message now writeErr).2 = none ∧
      (handlePing this message now writeErr).1.gettyConn =
        updateActive this.gettyConn now) ∧
    ((writeErr = some WriteErr.netNotTemporary ∨
      writeErr = some WriteErr.otherErr) →
      (handlePing this message now writeErr).2 = writeErr ∧
      (handlePing this message now writeErr).1.gettyConn = this.gettyConn) := by
  rcases writeErr with _ | e
  · refine ⟨rfl, fun _ => ⟨rfl, rfl⟩, fun h => ?_⟩
    rcases h with h | h <;> exact absurd h (by simp)
  · cases e <;>
      refine ⟨rfl, fun h => ?_, fun h => ?_⟩ <;>
      first
        | exact ⟨rfl, rfl⟩
        | (rcases h with h | h | h <;> simp_all [handlePing])

theorem handlePing_spec_witness :
    (handlePing wsConn0 "hello" 7 (some WriteErr.errCloseSent)).2 = none ∧
    (handlePing wsConn0 "hello" 7 (some WriteErr.errCloseSent)).1.gettyConn =
      updateActive wsConn0.gettyConn 7 :=
  (handlePing_spec wsConn0 "hello" 7 (some WriteErr.errCloseSent)).2.1
    (Or.inr (Or.inl rfl))

/-- C3 counterexample: the message adapter's close does not force the
transport to abandon linger (it does not set linger to the
immediate-abort value 0); it sets linger to the caller's `waitSec`, here 5. -/
theorem wsClose_linger_cex :
    (wsClose wsConn0 5 none none).map (fun s => s.transport.linger) =
      some (some 5) ∧
    (5 : Int) ≠ abandonLinger := by
  exact ⟨rfl, by decide⟩

/-- C3 (amended): the message adapter's close sends a close frame with the
fixed farewell payload "bye-bye!!!", sets the transport's linger option to
the caller-supplied `waitSec` (rather than abandoning linger), then closes
the transport; no error arising during the sequence is surfaced — the
result is identical for every combination of transport errors. -/
theorem wsClose_spec (this : GettyWSConn) (waitSec : Int)
    (writeErr closeErr writeErr' closeErr' : Option WriteErr)
    (h : this.underlying = ConnKind.tcp) :
    wsClose this waitSec writeErr closeErr =
      some { this with
        frames := this.frames ++ [(closeMessage, "bye-bye!!!")],
        transport := { linger := some waitSec,
                       closeCount := this.transport.closeCount + 1 } } ∧
    wsClose this waitSec writeErr closeErr =
      wsClose this waitSec writeErr' closeErr' := by
  constructor <;> simp [wsClose, h]

theorem wsClose_spec_witness :
    wsConn0.underlying = ConnKind.tcp ∧
    (wsClose wsConn0 5 (some WriteErr.otherErr) (some WriteErr.otherErr) =
      some { wsConn0 with
        frames := wsConn0.frames ++ [(closeMessage, "bye-bye!!!")],
        transport := { linger := some 5,
                       closeCount := wsConn0.transport.closeCount + 1 } } ∧
     wsClose wsConn0 5 (some WriteErr.otherErr) (some WriteErr.otherErr) =
      wsClose wsConn0 5 none none) :=
  ⟨rfl, wsClose_spec wsConn0 5 (some WriteErr.otherErr) (some WriteErr.otherErr)
    none none rfl⟩

/-- C4: for a strictly positive duration `d`, `setReadDeadline` stores `d`
and back-fills `wDeadline` with `d` exactly when `wDeadline` was still
unset (zero), leaving an already-set `wDeadline` unchanged; and
`setWriteDeadline` stores only `wDeadline`, never touching `rDeadline`. -/
theorem deadline_backfill_spec (this : GettyConn) (d : Int) (hd : 0 < d) :
    (this.wDeadline = 0 →
      setReadDeadline this d = some { this with rDeadline := d, wDeadline := d }) ∧
    (this.wDeadline ≠ 0 →
      setReadDeadline this d = some { this with rDeadline := d }) ∧
    setWriteDeadline this d = some { this with wDeadline := d } := by
  have h1 : ¬ d < 1 := by omega
  refine ⟨fun h => ?_, fun h => ?_, ?_⟩
  · simp [setReadDeadline, h1, h]
  · simp [setReadDeadline, h1, h]
  · simp [setWriteDeadline, h1]

theorem deadline_backfill_spec_witness :
    (0 : Int) < 5 ∧
    ((gettyConn0.wDeadline = 0 →
      setReadDeadline gettyConn0 5 =
        some { gettyConn0 with rDeadline := 5, wDeadline := 5 }) ∧
     (gettyConn0.wDeadline ≠ 0 →
      setReadDeadline gettyConn0 5 = some { gettyConn0 with rDeadline := 5 }) ∧
     setWriteDeadline gettyConn0 5 = some { gettyConn0 with wDeadline := 5 }) :=
  ⟨by decide, deadline_backfill_spec gettyConn0 5 (by decide)⟩

/-- C5: a non-positive duration makes both deadline setters panic (the
fatal InvalidArgument condition, `none`), producing no mutated state — the
previously stored deadlines are untouched since the check precedes every
assignment; a strictly positive duration never panics. -/
theorem deadline_invalid_spec (this : GettyConn) (d : Int) :
    (d ≤ 0 → setReadDeadline this d = none ∧ setWriteDeadline this d = none) ∧
    (0 < d → (setReadDeadline this d).isSome ∧ (setWriteDeadline this d).isSome) := by
  constructor <;> intro h
  · have h1 : d < 1 := by omega
    exact ⟨by simp [setReadDeadline, h1], by simp [setWriteDeadline, h1]⟩
  · have h1 : ¬ d < 1 := by omega
    refine ⟨?_, by simp [setWriteDeadline, h1]⟩
    by_cases hw : this.wDeadline = 0 <;> simp [setReadDeadline, h1, hw]

theorem deadline_invalid_spec_witness :
    setReadDeadline gettyConn0 0 = none ∧ setWriteDeadline gettyConn0 0 = none :=
  (deadline_invalid_spec gettyConn0 0).1 (by decide)

/-- C6: the stream adapter's read adds the returned byte count to
`readCount` (mod `2^32`) whether or not an error accompanies it and returns
the transport's result unchanged; write adds `len(p)` to `writeCount` before
the transport write and returns the transport's error unmodified; neither
operation touches the message counters; three writes of sizes 10, 20 and 30
from a fresh adapter leave `writeCount = 60`. -/
theorem tcp_counters_spec (this : GettyTCPConn) (l : Nat) (e : Option Nat)
    (p : List Nat) (e' : Option Nat) :
    ((tcpRead this l e).2 = (l, e) ∧
     (tcpRead this l e).1.gettyConn.readCount =
       (this.gettyConn.readCount + l) % u32) ∧
    ((tcpWrite this p e').2 = e' ∧
     (tcpWrite this p e').1.gettyConn.writeCount =
       (this.gettyConn.writeCount + p.length) % u32) ∧
    ((tcpRead this l e).1.gettyConn.readPkgCount = this.gettyConn.readPkgCount ∧
     (tcpRead this l e).1.gettyConn.writePkgCount = this.gettyConn.writePkgCount ∧
     (tcpWrite this p e').1.gettyConn.readPkgCount = this.gettyConn.readPkgCount ∧
     (tcpWrite this p e').1.gettyConn.writePkgCount = this.gettyConn.writePkgCount) ∧
    (tcpWrite (tcpWrite (tcpWrite tcpConn0
        (List.replicate 10 0) none).1
        (List.replicate 20 0) (some 3)).1
        (List.replicate 30 0) none).1.gettyConn.writeCount = 60 := by
  refine ⟨⟨rfl, rfl⟩, ⟨rfl, rfl⟩, ⟨rfl, rfl, rfl, rfl⟩, ?_⟩
  rfl

/-- C7: the message adapter's read increments `readMessageCount`
(`readPkgCount`) by one on success and never touches `readByteCount`
(`readCount`) — three successful reads from a fresh adapter give
`readPkgCount = 3` with `readCount = 0`; on failure nothing is counted, the
error is always returned to the caller, and a warning is logged exactly for
a close error whose code differs from the expected going-away code. -/
theorem ws_read_spec (this : GettyWSConn) (b : String) (e : ReadErr)
    (code : Nat) :
    ((wsRead this b none).1.gettyConn.readPkgCount =
       (this.gettyConn.readPkgCount + 1) % u32 ∧
     (wsRead this b none).1.gettyConn.readCount = this.gettyConn.readCount ∧
     (wsRead this b none).2 = (b, none, false)) ∧
    ((wsRead this b (some e)).1 = this ∧
     (wsRead this b (some e)).2.1 = b ∧
     (wsRead this b (some e)).2.2.1 = some e) ∧
    ((wsRead this b (some (ReadErr.closeErr closeGoingAway))).2.2.2 = false ∧
     (wsRead this b (some ReadErr.otherErr)).2.2.2 = false) ∧
    (code ≠ closeGoingAway →
      (wsRead this b (some (ReadErr.closeErr code))).2.2.2 = true) ∧
    ((wsRead (wsRead (wsRead wsConn0 "a" none).1 "bb" none).1
        "ccc" none).1.gettyConn.readPkgCount = 3 ∧
     (wsRead (wsRead (wsRead wsConn0 "a" none).1 "bb" none).1
        "ccc" none).1.gettyConn.readCount = 0) := by
  refine ⟨⟨rfl, rfl, rfl⟩, ⟨rfl, rfl, rfl⟩, ⟨?_, rfl⟩, fun h => ?_, rfl, rfl⟩
  · simp [wsRead, isUnexpectedCloseError]
  · simp [wsRead, isUnexpectedCloseError, h]

theorem ws_read_spec_witness :
    (1002 : Nat) ≠ closeGoingAway ∧
    (wsRead wsConn0 "" (some (ReadErr.closeErr 1002))).2.2.2 = true :=
  ⟨by decide, (ws_read_spec wsConn0 "" ReadErr.otherErr 1002).2.2.2.1 (by decide)⟩

/-- C8: the stream adapter's close is idempotent — from a state holding a
TCP handle, the first call sets linger to `waitSec`, closes the socket
exactly once and clears the handle; a second call on the resulting state is
a no-op that neither panics nor closes the socket again. -/
theorem tcp_close_idempotent (this : GettyTCPConn) (waitSec waitSec' : Int)
    (h : this.conn = some ConnKind.tcp) :
    ∃ s, tcpClose this waitSec = some s ∧
      s.conn = none ∧
      s.transport.linger = some waitSec ∧
      s.transport.closeCount = this.transport.closeCount + 1 ∧
      tcpClose s waitSec' = some s := by
  have hs : tcpClose this waitSec = some { this with conn := none, transport := { linger := some waitSec, closeCount := this.transport.closeCount + 1 } } := by
    simp [tcpClose, h]
  exact ⟨_, hs, rfl, rfl, rfl, rfl⟩

theorem tcp_close_idempotent_witness :
    tcpConn0.conn = some ConnKind.tcp ∧
    ∃ s, tcpClose tcpConn0 0 = some s ∧
      s.conn = none ∧
      s.transport.linger = some 0 ∧
      s.transport.closeCount = tcpConn0.transport.closeCount + 1 ∧
      tcpClose s 7 = some s :=
  ⟨rfl, tcp_close_idempotent tcpConn0 0 7 rfl⟩

/-- C9: with a clock whose elapsed-since-epoch readings are non-negative and
non-decreasing, `getActive` is monotonically non-decreasing across any
sequence of `updateActive` calls on an adapter whose `active` field starts
at its zeroed construction value. -/
theorem activity_monotone (epoch : Int) (st : GettyConn) (t : Nat → Int)
    (hmono : ∀ i j, i ≤ j → t i ≤ t j) (h0 : ∀ i, 0 ≤ t i)
    (hst : st.active = 0) :
    ∀ i j, i ≤ j →
      getActive epoch (activeAfter st t i) ≤ getActive epoch (activeAfter st t j) := by
  intro i j hij
  cases i with
  | zero =>
      cases j with
      | zero => exact le_refl _
      | succ m =>
          show epoch + st.active ≤ epoch + t m
          rw [hst]
          exact add_le_add_left (h0 m) epoch
  | succ n =>
      cases j with
      | zero => omega
      | succ m =>
          show epoch + t n ≤ epoch + t m
          exact add_le_add_left (hmono n m (by omega)) epoch

theorem activity_monotone_witness :
    getActive 0 (activeAfter gettyConn0 (fun n => (n : Int)) 1) ≤
      getActive 0 (activeAfter gettyConn0 (fun n => (n : Int)) 3) :=
  activity_monotone 0 gettyConn0 (fun n => (n : Int))
    (fun i j h => by show (i : Int) ≤ (j : Int); exact_mod_cast h)
    (fun i => by show (0 : Int) ≤ (i : Int); exact_mod_cast Nat.zero_le i)
    rfl 1 3 (by omega)

/-- C10: the stream adapter's constructor accepts a handle of any dynamic
type and stores it as given, but close type-asserts the stored handle to
`*net.TCPConn`, so on an adapter holding a non-TCP handle the first close
panics (`none`) instead of closing the transport; the message adapter's
close performs the same assertion on the websocket's underlying conn and
likewise panics when it is not TCP. -/
theorem close_type_assertion_panics (connID : Nat) (k : ConnKind)
    (this : GettyTCPConn) (ws : GettyWSConn) (waitSec : Int)
    (writeErr closeErr : Option WriteErr)
    (hk : k ≠ ConnKind.tcp) (hconn : this.conn = some k)
    (hws : ws.underlying ≠ ConnKind.tcp) :
    (newGettyTCPConn connID (some k) none none).map (fun r => r.2.conn) =
      some (some k) ∧
    tcpClose this waitSec = none ∧
    wsClose ws waitSec writeErr closeErr = none := by
  refine ⟨rfl, ?_, ?_⟩
  · simp [tcpClose, hconn, hk]
  · simp [wsClose, hws]

theorem close_type_assertion_panics_witness :
    (ConnKind.nonTCP ≠ ConnKind.tcp ∧ tcpConnU.conn = some ConnKind.nonTCP ∧
     wsConnU.underlying ≠ ConnKind.tcp) ∧
    ((newGettyTCPConn 0 (some ConnKind.nonTCP) none none).map
        (fun r => r.2.conn) = some (some ConnKind.nonTCP) ∧
     tcpClose tcpConnU 3 = none ∧
     wsClose wsConnU 3 none none = none) :=
  ⟨⟨by decide, rfl, by decide⟩,
   close_type_assertion_panics 0 ConnKind.nonTCP tcpConnU wsConnU 3 none none
     (by decide) rfl (by decide)⟩

end Getty
